import Mathlib

/-!
Verification of the dispatch and layout-transform layer of a weight-only
quantized matmul extension (`src/csrc/quant_matmul.cpp`).

The file shallowly embeds the two entry points, `preprocess_weight` and
`quant_matmul`, over an explicit tensor metadata model.  Tensors are
modelled by their shape, dtype, device and contiguity flag; the external
CUDA/CUTLASS kernels are out of scope (the C++ file only dispatches to
them), so a call is modelled by its validation outcome, the derived
quantization parameters, the strategy choice, and the allocation/launch
event trace.

C++ `TORCH_CHECK` failures are modelled as `Except.error` with an error
kind assigned per check, following the error taxonomy of the design
document (`ShapeError`, `DtypeError`, `DeviceError`, `LayoutError`,
`QuantSchemeError`, `UnsupportedArchError`, `UnsupportedBitWidthError`).
`at::Tensor::size(i)` on a tensor with too few dimensions throws; that is
`IndexError`.  Integer division or remainder by zero is undefined
behaviour in C++; it is modelled as the distinguished outcome
`DivideByZeroUB`.
-/

/-- Tensor dtypes occurring in the source (`torch::kFloat16`, `torch::kInt8`)
plus a representative other dtype so that dtype mismatches are expressible. -/
inductive Dtype where
  | float16
  | int8
  | float32
  deriving DecidableEq, Repr

/-- A device: host memory or a CUDA device with an index. -/
inductive Device where
  | cpu
  | cuda (index : Nat)
  deriving DecidableEq, Repr

/-- Metadata of an `at::Tensor`: sizes, dtype, device, contiguity. -/
structure Tensor where
  shape : List Nat
  dtype : Dtype
  device : Device
  contiguous : Bool
  deriving DecidableEq, Repr

/-- Error kinds for the checks of the source file (see module docstring). -/
inductive ErrKind where
  | UnsupportedBitWidthError
  | UnsupportedArchError
  | QuantSchemeError
  | ShapeError
  | DtypeError
  | DeviceError
  | LayoutError
  | IndexError
  | DivideByZeroUB
  deriving DecidableEq, Repr

/-- `t.size(i)`: the i-th size, or an error when the tensor has fewer
dimensions (as `at::Tensor::size` throws). -/
def Tensor.size (t : Tensor) (i : Nat) : Except ErrKind Nat :=
  match t.shape.get? i with
  | some v => .ok v
  | none => .error .IndexError

/-- `t.dim()`. -/
def Tensor.dim (t : Tensor) : Nat := t.shape.length

/-- `t.is_cuda()`. -/
def Tensor.is_cuda (t : Tensor) : Bool :=
  match t.device with
  | .cuda _ => true
  | .cpu => false

/-- `t.is_cpu()`. -/
def Tensor.is_cpu (t : Tensor) : Bool :=
  match t.device with
  | .cuda _ => false
  | .cpu => true

/-- `TORCH_CHECK(cond)`, tagged with the error kind the failed condition
belongs to in the design's taxonomy. -/
def torchCheck (cond : Bool) (e : ErrKind) : Except ErrKind Unit :=
  if cond then .ok () else .error e

/-- C++ `a / b` on nonnegative ints: division by zero is UB. -/
def cppDiv (a b : Nat) : Except ErrKind Nat :=
  if b = 0 then .error .DivideByZeroUB else .ok (a / b)

/-- C++ `a % b` on nonnegative ints: remainder by zero is UB. -/
def cppMod (a b : Nat) : Except ErrKind Nat :=
  if b = 0 then .error .DivideByZeroUB else .ok (a % b)

/- ------------------------------------------------------------------ -/
/- `preprocess_weight` (src/csrc/quant_matmul.cpp, lines 80-101)      -/
/- ------------------------------------------------------------------ -/

/-- `preprocess_weight(quantized_weight, bits, arch)`.

Returns, on success, the output tensor together with the input tensor as
it stands after the call: the external
`preprocess_weights_for_mixed_gemm` reads the input through a
const pointer and writes only into the freshly allocated output, so the
input passes through unchanged.  The output is `at::empty({cols, rows /
elts_per_byte}, quantized_weight.options())`: same dtype and device as
the input, contiguous. -/
def preprocess_weight (quantized_weight : Tensor) (bits arch : Int) :
    Except ErrKind (Tensor × Tensor) := do
  torchCheck (bits == 4 || bits == 8) .UnsupportedBitWidthError
  torchCheck (70 ≤ arch && arch < 90) .UnsupportedArchError
  let rows ← quantized_weight.size 0
  let elts_per_byte : Nat := (8 / bits).toNat
  let cols := (← quantized_weight.size 1) * elts_per_byte
  torchCheck (quantized_weight.dtype == .int8) .DtypeError
  torchCheck quantized_weight.is_cpu .DeviceError
  torchCheck quantized_weight.contiguous .LayoutError
  torchCheck (quantized_weight.shape == [rows, cols / elts_per_byte]) .ShapeError
  let out : Tensor :=
    { shape := [cols, rows / elts_per_byte]
      dtype := quantized_weight.dtype
      device := quantized_weight.device
      contiguous := true }
  pure (out, quantized_weight)

/- ------------------------------------------------------------------ -/
/- `quant_matmul` (src/csrc/quant_matmul.cpp, lines 103-173)          -/
/- ------------------------------------------------------------------ -/

/-- The values derived by the validation prologue of `quant_matmul`
(lines 106-139): problem sizes, the quantization scheme flag and the
group size. -/
structure Checked where
  m : Nat
  k : Nat
  n : Nat
  is_finegrained : Bool
  group_size : Nat
  deriving DecidableEq, Repr

/-- Validation prologue of `quant_matmul` (lines 106-139), with the checks
in source order. -/
def quant_matmul_checks (input weight weight_scales : Tensor)
    (bias? : Option Tensor) (bits : Int) : Except ErrKind Checked := do
  torchCheck (bits == 4 || bits == 8) .UnsupportedBitWidthError
  let m ← input.size 0
  let k ← input.size 1
  let n ← weight.size 0
  let is_finegrained := weight_scales.dim == 2
  let group_size ←
    if !is_finegrained then pure k
    else do cppDiv k (← weight_scales.size 0)
  torchCheck ((← cppMod k group_size) == 0) .QuantSchemeError
  if is_finegrained then
    torchCheck (group_size == 64 || group_size == 128) .QuantSchemeError
  torchCheck (n % 8 == 0) .ShapeError
  torchCheck (input.dtype == .float16) .DtypeError
  torchCheck (weight.dtype == .int8) .DtypeError
  torchCheck (weight_scales.dtype == .float16) .DtypeError
  torchCheck input.is_cuda .DeviceError
  torchCheck weight.is_cuda .DeviceError
  torchCheck weight_scales.is_cuda .DeviceError
  torchCheck input.contiguous .LayoutError
  torchCheck weight.contiguous .LayoutError
  torchCheck weight_scales.contiguous .LayoutError
  torchCheck (input.shape == [m, k]) .ShapeError
  torchCheck (weight.shape == [n, k / (8 / bits).toNat]) .ShapeError
  if !is_finegrained then
    torchCheck (weight_scales.shape == [n]) .ShapeError
  else
    torchCheck (weight_scales.shape == [k / group_size, n]) .ShapeError
  match bias? with
  | some bias => do
      torchCheck (bias.dtype == .float16) .DtypeError
      torchCheck bias.is_cuda .DeviceError
      torchCheck bias.contiguous .LayoutError
      torchCheck (bias.shape == [n]) .ShapeError
  | none => pure ()
  pure { m := m, k := k, n := n, is_finegrained := is_finegrained,
         group_size := group_size }

/-- The two kernel strategies selectable by `gemm_fp16_int_bias`. -/
inductive Strategy where
  | batchedGemv
  | tiledGemm
  deriving DecidableEq, Repr

/-- The branch of `gemm_fp16_int_bias` (lines 69-76): `m <= 4` dispatches
to the weight-only batched gemv, otherwise to the CUTLASS fpA-intB GEMM. -/
def gemm_fp16_int_bias (m : Nat) : Strategy :=
  if m ≤ 4 then .batchedGemv else .tiledGemm

/-- Observable host-side events of a `quant_matmul` call, in order:
tensor allocations (lines 147, 150) and the single kernel launch
(lines 152-170).  The launch records the strategy taken and the
workspace byte count passed to `gemm_fp16_int_bias`. -/
inductive Event where
  | allocOutput (shape : List Nat)
  | allocWorkspace (bytes : Nat)
  | launch (strategy : Strategy) (workspaceBytes : Nat)
  deriving DecidableEq, Repr

/-- The success observables of a `quant_matmul` call. -/
structure MMSuccess where
  outShape : List Nat
  groupSize : Nat
  finegrained : Bool
  strategy : Strategy
  workspaceBytes : Nat
  deriving DecidableEq, Repr

/-- One `quant_matmul` call: the host-side event trace and the outcome. -/
structure MMRun where
  trace : List Event
  result : Except ErrKind MMSuccess
  deriving Repr

/-- `quant_matmul(input, weight, weight_scales, bias_, bits)`
(lines 103-173).  A validation failure aborts the call before the output
tensor or workspace is created (lines 146-150 follow all checks), hence
an empty event trace.  On success the output `(m, n)` is allocated, a
4 MiB (`1 << 22` bytes, int8) workspace is allocated exactly when
`m > 4`, and `gemm_fp16_int_bias` is invoked with that workspace. -/
def quant_matmul (input weight weight_scales : Tensor)
    (bias? : Option Tensor) (bits : Int) : MMRun :=
  match quant_matmul_checks input weight weight_scales bias? bits with
  | .error e => { trace := [], result := .error e }
  | .ok c =>
      let outShape := [c.m, c.n]
      let has_workspace := decide (4 < c.m)
      let wsBytes : Nat := if has_workspace then 2 ^ 22 else 0
      let strategy := gemm_fp16_int_bias c.m
      { trace :=
          Event.allocOutput outShape ::
            (if has_workspace then [Event.allocWorkspace (2 ^ 22)] else []) ++
            [Event.launch strategy wsBytes]
        result := .ok
          { outShape := outShape
            groupSize := c.group_size
            finegrained := c.is_finegrained
            strategy := strategy
            workspaceBytes := wsBytes } }

/- ------------------------------------------------------------------ -/
/- Concrete tensor families for witnesses and counterexamples          -/
/- ------------------------------------------------------------------ -/

/-- A contiguous fp16 activation of shape `(m, k)` on CUDA device `d`. -/
def exInput (m k d : Nat) : Tensor :=
  { shape := [m, k], dtype := .float16, device := .cuda d, contiguous := true }

/-- A contiguous int8 packed weight of physical shape `(n, c)` on CUDA
device `d`. -/
def exWeight (n c d : Nat) : Tensor :=
  { shape := [n, c], dtype := .int8, device := .cuda d, contiguous := true }

/-- A contiguous fp16 vector of shape `(n,)` on CUDA device `d`
(rank-1 scales, or a bias). -/
def exVec (n d : Nat) : Tensor :=
  { shape := [n], dtype := .float16, device := .cuda d, contiguous := true }

/-- A contiguous fp16 matrix of shape `(a, n)` on CUDA device `d`
(rank-2 group-wise scales). -/
def exScales2 (a n d : Nat) : Tensor :=
  { shape := [a, n], dtype := .float16, device := .cuda d, contiguous := true }

/-- A contiguous fp16 activation of shape `(2, 64)` on the host, for the
device-error cases. -/
def exInputCpu : Tensor :=
  { shape := [2, 64], dtype := .float16, device := .cpu, contiguous := true }

/-- A contiguous int8 host matrix of physical shape `(r, c)`, as accepted
by `preprocess_weight`. -/
def exHostWeight (r c : Nat) : Tensor :=
  { shape := [r, c], dtype := .int8, device := .cpu, contiguous := true }

/- ------------------------------------------------------------------ -/
/- Helper lemmas about the primitive operations                        -/
/- ------------------------------------------------------------------ -/

theorem torchCheck_ok_iff {c : Bool} {e : ErrKind} {v : Unit} :
    torchCheck c e = .ok v ↔ c = true := by
  cases c <;> simp [torchCheck]

theorem torchCheck_error_iff {c : Bool} {e e' : ErrKind} :
    torchCheck c e = .error e' ↔ c = false ∧ e' = e := by
  cases c <;> simp [torchCheck, eq_comm]

theorem size_ok_iff {t : Tensor} {i v : Nat} :
    t.size i = .ok v ↔ t.shape.get? i = some v := by
  unfold Tensor.size
  cases h : t.shape.get? i <;> simp

theorem size_error_iff {t : Tensor} {i : Nat} {e : ErrKind} :
    t.size i = .error e ↔ t.shape.get? i = none ∧ e = .IndexError := by
  unfold Tensor.size
  cases h : t.shape.get? i <;> simp [eq_comm]

theorem cppDiv_ok_iff {a b r : Nat} : cppDiv a b = .ok r ↔ b ≠ 0 ∧ a / b = r := by
  unfold cppDiv
  by_cases hb : b = 0 <;> simp [hb]

theorem cppDiv_error_iff {a b : Nat} {e : ErrKind} :
    cppDiv a b = .error e ↔ b = 0 ∧ e = .DivideByZeroUB := by
  unfold cppDiv
  by_cases hb : b = 0 <;> simp [hb, eq_comm]

theorem cppMod_ok_iff {a b r : Nat} : cppMod a b = .ok r ↔ b ≠ 0 ∧ a % b = r := by
  unfold cppMod
  by_cases hb : b = 0 <;> simp [hb]

theorem cppMod_error_iff {a b : Nat} {e : ErrKind} :
    cppMod a b = .error e ↔ b = 0 ∧ e = .DivideByZeroUB := by
  unfold cppMod
  by_cases hb : b = 0 <;> simp [hb, eq_comm]

theorem pure_eq_ok {α : Type} (x : α) : (pure x : Except ErrKind α) = Except.ok x := rfl

set_option maxHeartbeats 1000000 in
/-- Master inversion lemma: everything the success of the validation
prologue of `quant_matmul` implies about the inputs and the derived
`Checked` values. -/
theorem checks_ok_inv (i w s : Tensor) (b? : Option Tensor) (bits : Int) (c : Checked)
    (h : quant_matmul_checks i w s b? bits = .ok c) :
    (bits = 4 ∨ bits = 8) ∧
    i.shape = [c.m, c.k] ∧
    w.shape = [c.n, c.k / (8 / bits).toNat] ∧
    c.is_finegrained = (s.dim == 2) ∧
    c.group_size ≠ 0 ∧ c.k % c.group_size = 0 ∧ c.n % 8 = 0 ∧
    (c.is_finegrained = false → c.group_size = c.k ∧ s.shape = [c.n]) ∧
    (c.is_finegrained = true →
      (c.group_size = 64 ∨ c.group_size = 128) ∧
      s.shape = [c.k / c.group_size, c.n] ∧
      ∃ s0, s.shape.get? 0 = some s0 ∧ s0 ≠ 0 ∧ c.group_size = c.k / s0) ∧
    i.dtype = .float16 ∧ w.dtype = .int8 ∧ s.dtype = .float16 ∧
    i.is_cuda = true ∧ w.is_cuda = true ∧ s.is_cuda = true ∧
    i.contiguous = true ∧ w.contiguous = true ∧ s.contiguous = true := by
  unfold quant_matmul_checks at h
  simp only [bind, Except.bind] at h
  repeat' split at h
  all_goals first
    | exact Except.noConfusion h
    | (simp only [pure_eq_ok, Except.ok.injEq] at h
       subst h
       simp_all [torchCheck_ok_iff, size_ok_iff, cppDiv_ok_iff, cppMod_ok_iff, pure_eq_ok]
       try omega)

/-- `quant_matmul` fails exactly when its validation prologue fails, with
the same error kind. -/
theorem quant_matmul_result_error_iff (i w s : Tensor) (b? : Option Tensor)
    (bits : Int) (e : ErrKind) :
    (quant_matmul i w s b? bits).result = .error e ↔
      quant_matmul_checks i w s b? bits = .error e := by
  unfold quant_matmul
  cases h : quant_matmul_checks i w s b? bits <;> simp

/-- On a successful validation prologue, the whole call is determined by
the `Checked` record. -/
theorem quant_matmul_eq_of_checks_ok (i w s : Tensor) (b? : Option Tensor)
    (bits : Int) (c : Checked) (h : quant_matmul_checks i w s b? bits = .ok c) :
    quant_matmul i w s b? bits =
      { trace :=
          Event.allocOutput [c.m, c.n] ::
            (if decide (4 < c.m) then [Event.allocWorkspace (2 ^ 22)] else []) ++
            [Event.launch (gemm_fp16_int_bias c.m) (if decide (4 < c.m) then 2 ^ 22 else 0)]
        result := .ok
          { outShape := [c.m, c.n]
            groupSize := c.group_size
            finegrained := c.is_finegrained
            strategy := gemm_fp16_int_bias c.m
            workspaceBytes := if decide (4 < c.m) then 2 ^ 22 else 0 } } := by
  unfold quant_matmul
  rw [h]

/-- Success inversion for the whole call: the result record is the one
built from the `Checked` values. -/
theorem quant_matmul_ok_inv (i w s : Tensor) (b? : Option Tensor) (bits : Int)
    (r : MMSuccess) (h : (quant_matmul i w s b? bits).result = .ok r) :
    ∃ c, quant_matmul_checks i w s b? bits = .ok c ∧
      r = { outShape := [c.m, c.n]
            groupSize := c.group_size
            finegrained := c.is_finegrained
            strategy := gemm_fp16_int_bias c.m
            workspaceBytes := if decide (4 < c.m) then 2 ^ 22 else 0 } := by
  cases hc : quant_matmul_checks i w s b? bits with
  | error e =>
      unfold quant_matmul at h
      rw [hc] at h
      exact Except.noConfusion h
  | ok c =>
      rw [quant_matmul_eq_of_checks_ok i w s b? bits c hc] at h
      injection h with h
      exact ⟨c, rfl, h.symm⟩

/-- C1: the strategy is selected solely by the batch size `m`: `m ≤ 4`
takes the batched-vector path and allocates no workspace; `m > 4` takes
the tiled-GEMM path and allocates a workspace of exactly `2 ^ 22` bytes,
independently of `n` and `k`. -/
theorem C1_strategy_and_workspace (input weight scales : Tensor)
    (b? : Option Tensor) (bits : Int) (m k : Nat) (r : MMSuccess)
    (hin : input.shape = [m, k])
    (h : (quant_matmul input weight scales b? bits).result = .ok r) :
    (m ≤ 4 →
      r.strategy = .batchedGemv ∧ r.workspaceBytes = 0 ∧
      (quant_matmul input weight scales b? bits).trace =
        [Event.allocOutput r.outShape, Event.launch .batchedGemv 0]) ∧
    (4 < m →
      r.strategy = .tiledGemm ∧ r.workspaceBytes = 2 ^ 22 ∧
      (quant_matmul input weight scales b? bits).trace =
        [Event.allocOutput r.outShape, Event.allocWorkspace (2 ^ 22),
         Event.launch .tiledGemm (2 ^ 22)]) := by
  obtain ⟨c, hc, hr⟩ := quant_matmul_ok_inv input weight scales b? bits r h
  have hinv := checks_ok_inv input weight scales b? bits c hc
  have hm : c.m = m := by
    have h2 := hinv.2.1
    rw [hin] at h2
    exact (List.cons.injEq _ _ _ _).mp h2.symm |>.1
  rw [quant_matmul_eq_of_checks_ok input weight scales b? bits c hc]
  subst hr
  constructor
  · intro hle
    have : ¬ (4 < c.m) := by omega
    simp [gemm_fp16_int_bias, this, hm ▸ hle]
  · intro hlt
    have h4 : 4 < c.m := by omega
    have : ¬ (c.m ≤ 4) := by omega
    simp [gemm_fp16_int_bias, this, h4]

/-- C1 witness: a concrete small-batch per-channel call (`m = 2`). -/
theorem C1_witness :
    (exInput 2 64 0).shape = [2, 64] ∧
    (quant_matmul (exInput 2 64 0) (exWeight 8 32 0) (exVec 8 0) none 4).result =
      .ok { outShape := [2, 8], groupSize := 64, finegrained := false,
            strategy := .batchedGemv, workspaceBytes := 0 } ∧
    ((2 ≤ 4 →
      Strategy.batchedGemv = Strategy.batchedGemv ∧ (0 : Nat) = 0 ∧
      (quant_matmul (exInput 2 64 0) (exWeight 8 32 0) (exVec 8 0) none 4).trace =
        [Event.allocOutput [2, 8], Event.launch .batchedGemv 0]) ∧
    (4 < 2 →
      Strategy.batchedGemv = Strategy.tiledGemm ∧ (0 : Nat) = 2 ^ 22 ∧
      (quant_matmul (exInput 2 64 0) (exWeight 8 32 0) (exVec 8 0) none 4).trace =
        [Event.allocOutput [2, 8], Event.allocWorkspace (2 ^ 22),
         Event.launch .tiledGemm (2 ^ 22)])) :=
  ⟨rfl, rfl, C1_strategy_and_workspace (exInput 2 64 0) (exWeight 8 32 0) (exVec 8 0)
    none 4 2 64 _ rfl rfl⟩

/-- C2: the quantization scheme is derived from the scale tensor's rank:
rank 1 gives the per-channel scheme with `groupSize = k`; rank 2 gives the
group-wise scheme with `groupSize = k / weight_scales.shape[0]`, which
must be 64 or 128 and divide `k`; in particular `k / weight_scales.shape[0]
= 96` makes the call fail with `QuantSchemeError`. -/
theorem C2_scheme_resolution :
    (∀ (i w s : Tensor) (b? : Option Tensor) (bits : Int) (m k t : Nat)
        (r : MMSuccess),
      i.shape = [m, k] → s.shape = [t] →
      (quant_matmul i w s b? bits).result = .ok r →
      r.finegrained = false ∧ r.groupSize = k) ∧
    (∀ (i w s : Tensor) (b? : Option Tensor) (bits : Int) (m k s0 t : Nat)
        (r : MMSuccess),
      i.shape = [m, k] → s.shape = [s0, t] →
      (quant_matmul i w s b? bits).result = .ok r →
      r.finegrained = true ∧ r.groupSize = k / s0 ∧
        (r.groupSize = 64 ∨ r.groupSize = 128) ∧ k % r.groupSize = 0) ∧
    (∀ (i w s : Tensor) (b? : Option Tensor) (bits : Int) (m k n wc s0 t : Nat),
      (bits = 4 ∨ bits = 8) → i.shape = [m, k] → w.shape = [n, wc] →
      s.shape = [s0, t] → s0 ≠ 0 → k / s0 = 96 →
      (quant_matmul i w s b? bits).result = .error .QuantSchemeError) := by
  refine ⟨?_, ?_, ?_⟩
  · intro i w s b? bits m k t r hi hs h
    obtain ⟨c, hc, hr⟩ := quant_matmul_ok_inv i w s b? bits r h
    have hinv := checks_ok_inv i w s b? bits c hc
    have hk : c.k = k := by
      have h2 := hinv.2.1
      rw [hi] at h2
      exact ((List.cons.injEq _ _ _ _).mp h2.symm).2 |> fun hh =>
        ((List.cons.injEq _ _ _ _).mp hh).1
    have hfg : c.is_finegrained = false := by
      have := hinv.2.2.2.1
      rw [this]
      simp [Tensor.dim, hs]
    subst hr
    refine ⟨hfg, ?_⟩
    have := (hinv.2.2.2.2.2.2.2.1 hfg).1
    simp only []
    rw [this, hk]
  · intro i w s b? bits m k s0 t r hi hs h
    obtain ⟨c, hc, hr⟩ := quant_matmul_ok_inv i w s b? bits r h
    have hinv := checks_ok_inv i w s b? bits c hc
    have hk : c.k = k := by
      have h2 := hinv.2.1
      rw [hi] at h2
      exact ((List.cons.injEq _ _ _ _).mp h2.symm).2 |> fun hh =>
        ((List.cons.injEq _ _ _ _).mp hh).1
    have hfg : c.is_finegrained = true := by
      have := hinv.2.2.2.1
      rw [this]
      simp [Tensor.dim, hs]
    obtain ⟨h64, hshape, s0', hget, hs0', hgs⟩ := hinv.2.2.2.2.2.2.2.2.1 hfg
    have hs0eq : s0' = s0 := by
      rw [hs] at hget
      exact (by simpa using hget : s0 = s0').symm
    subst hr
    refine ⟨hfg, ?_, ?_, ?_⟩
    · simp only []
      rw [hgs, hk, hs0eq]
    · simpa using h64
    · have := hinv.2.2.2.2.2.1
      simp only []
      rw [← hk]
      exact this
  · intro i w s b? bits m k n wc s0 t hbits hi hw hs hs0 hdiv
    rw [quant_matmul_result_error_iff]
    unfold quant_matmul_checks
    have hb : (bits == 4 || bits == 8) = true := by
      rcases hbits with h | h <;> simp [h]
    simp only [bind, Except.bind, hb, torchCheck, if_true, Tensor.size, hi, hw, hs,
      Tensor.dim]
    simp only [List.get?]
    by_cases hmod : k % 96 = 0 <;>
      simp [cppDiv, cppMod, hs0, hdiv, hmod]

/-- C2 witness: `k = 192`, rank-2 scales with `shape[0] = 2`, so
`k / shape[0] = 96`: the call fails with `QuantSchemeError`. -/
theorem C2_witness :
    ((4 : Int) = 4 ∨ (4 : Int) = 8) ∧
    (exInput 2 192 0).shape = [2, 192] ∧
    (exWeight 8 96 0).shape = [8, 96] ∧
    (exScales2 2 8 0).shape = [2, 8] ∧
    (2 : Nat) ≠ 0 ∧ 192 / 2 = 96 ∧
    (quant_matmul (exInput 2 192 0) (exWeight 8 96 0) (exScales2 2 8 0) none 4).result =
      .error .QuantSchemeError :=
  ⟨Or.inl rfl, rfl, rfl, rfl, by decide, rfl,
    C2_scheme_resolution.2.2 _ _ _ none 4 2 192 8 96 2 8 (Or.inl rfl) rfl rfl rfl
      (by decide) rfl⟩

/-- C3 counterexample: activation on CUDA device 0 and weight on CUDA
device 1 pass every check; the call succeeds and launches the kernel, it
does not fail with `DeviceError`. -/
theorem C3_counterexample :
    (quant_matmul (exInput 2 64 0) (exWeight 8 32 1) (exVec 8 0) none 4).result =
      .ok { outShape := [2, 8], groupSize := 64, finegrained := false,
            strategy := .batchedGemv, workspaceBytes := 0 } ∧
    Event.launch .batchedGemv 0 ∈
      (quant_matmul (exInput 2 64 0) (exWeight 8 32 1) (exVec 8 0) none 4).trace :=
  ⟨rfl, by decide⟩

/-- C3 (amended): `quant_matmul` requires every tensor to be on a CUDA
device — a host-resident activation fails with `DeviceError` — but it does
not compare the devices: tensors on arbitrary (possibly different) CUDA
devices pass validation and the kernel is launched. -/
theorem C3_device_checks :
    (∀ d1 d2 d3 : Nat,
      (quant_matmul (exInput 2 64 d1) (exWeight 8 32 d2) (exVec 8 d3) none 4).result =
        .ok { outShape := [2, 8], groupSize := 64, finegrained := false,
              strategy := .batchedGemv, workspaceBytes := 0 }) ∧
    (quant_matmul exInputCpu (exWeight 8 32 0) (exVec 8 0) none 4).result =
      .error .DeviceError ∧
    (∀ (i w s : Tensor) (b? : Option Tensor) (bits : Int) (r : MMSuccess),
      (quant_matmul i w s b? bits).result = .ok r →
      i.is_cuda = true ∧ w.is_cuda = true ∧ s.is_cuda = true) := by
  refine ⟨?_, rfl, ?_⟩
  · intro d1 d2 d3
    simp [quant_matmul, quant_matmul_checks, exInput, exWeight, exVec, bind,
      Except.bind, torchCheck, Tensor.size, cppDiv, cppMod, Tensor.dim,
      Tensor.is_cuda, pure_eq_ok, gemm_fp16_int_bias]
  · intro i w s b? bits r h
    obtain ⟨c, hc, _⟩ := quant_matmul_ok_inv i w s b? bits r h
    obtain ⟨-, -, -, -, -, -, -, -, -, -, -, -, hic, hwc, hsc, -, -, -⟩ :=
      checks_ok_inv i w s b? bits c hc
    exact ⟨hic, hwc, hsc⟩

/-- C3 witness: a concrete successful mixed-device call, instantiating the
cuda-residency conclusion. -/
theorem C3_witness :
    (quant_matmul (exInput 2 64 5) (exWeight 8 32 7) (exVec 8 9) none 4).result =
      .ok { outShape := [2, 8], groupSize := 64, finegrained := false,
            strategy := .batchedGemv, workspaceBytes := 0 } ∧
    ((exInput 2 64 5).is_cuda = true ∧ (exWeight 8 32 7).is_cuda = true ∧
      (exVec 8 9).is_cuda = true) :=
  ⟨rfl, C3_device_checks.2.2 _ _ _ none 4 _ rfl⟩

/-- C4 counterexample: with `k = 0` every precondition listed by the claim
holds (bits valid, fp16 activation `(1, 0)`, int8 weight `(8, 0/2)`,
`8 % 8 = 0`, rank-1 scales `(8,)` so `groupSize = k` and
`k % groupSize = 0` as naturals), yet the call does not succeed: the
`k % group_size` check divides by zero. -/
theorem C4_counterexample :
    (((4 : Int) = 4 ∨ (4 : Int) = 8) ∧
      (exInput 1 0 0).shape = [1, 0] ∧
      (exWeight 8 0 0).shape = [8, 0 / ((8 : Int) / 4).toNat] ∧
      (8 : Nat) % 8 = 0 ∧
      (exVec 8 0).shape = [8] ∧
      (0 : Nat) % 0 = 0) ∧
    (quant_matmul (exInput 1 0 0) (exWeight 8 0 0) (exVec 8 0) none 4).result =
      .error .DivideByZeroUB :=
  ⟨⟨Or.inl rfl, rfl, rfl, by decide, rfl, by decide⟩, rfl⟩

/-- C4 (amended): for every input satisfying the validator's
preconditions and with `k > 0`, `quant_matmul` succeeds and returns an
output of shape `(m, n)`. -/
theorem C4_valid_inputs_succeed (m k n g di dw ds : Nat) (bits : Int)
    (scales : Tensor) (b? : Option Tensor)
    (hbits : bits = 4 ∨ bits = 8)
    (hk : 0 < k)
    (hn : n % 8 = 0)
    (hscales : (scales = exVec n ds ∧ g = k) ∨
               (scales = exScales2 (k / g) n ds ∧ (g = 64 ∨ g = 128) ∧ k % g = 0))
    (hbias : b? = none ∨ ∃ db, b? = some (exVec n db)) :
    ∃ r, (quant_matmul (exInput m k di) (exWeight n (k / (8 / bits).toNat) dw)
            scales b? bits).result = .ok r ∧ r.outShape = [m, n] := by
  have hgs : ∃ fg gs, quant_matmul_checks (exInput m k di)
      (exWeight n (k / (8 / bits).toNat) dw) scales b? bits =
      .ok { m := m, k := k, n := n, is_finegrained := fg, group_size := gs } := by
    rcases hscales with ⟨hsc, hgk⟩ | ⟨hsc, hg, hmod⟩
    · refine ⟨false, k, ?_⟩
      subst hsc hgk
      rcases hbits with hb | hb <;> subst hb <;>
        rcases hbias with hb0 | ⟨db, hb0⟩ <;> subst hb0 <;>
          simp [quant_matmul_checks, bind, Except.bind, torchCheck, Tensor.size,
            cppDiv, cppMod, Tensor.dim, Tensor.is_cuda, exInput, exWeight, exVec,
            pure_eq_ok, hk.ne', hn, Nat.mod_self]
    · refine ⟨true, g, ?_⟩
      have hdvd : g ∣ k := Nat.dvd_of_mod_eq_zero hmod
      have hgpos : 0 < g := by rcases hg with hg | hg <;> omega
      have h2 : k / g ≠ 0 := Nat.ne_of_gt (Nat.div_pos (Nat.le_of_dvd hk hdvd) hgpos)
      have h1 : k / (k / g) = g := Nat.div_div_self hdvd hk.ne'
      have hg64 : (g == 64 || g == 128) = true := by
        rcases hg with hg | hg <;> simp [hg]
      subst hsc
      rcases hbits with hb | hb <;> subst hb <;>
        rcases hbias with hb0 | ⟨db, hb0⟩ <;> subst hb0 <;>
          simp [quant_matmul_checks, bind, Except.bind, torchCheck, Tensor.size,
            cppDiv, cppMod, Tensor.dim, Tensor.is_cuda, exInput, exWeight,
            exScales2, exVec, pure_eq_ok, hk.ne', hn, h1, h2, hmod, hg64, hgpos.ne']
  obtain ⟨fg, gs, hchecks⟩ := hgs
  rw [quant_matmul_eq_of_checks_ok _ _ _ _ _ _ hchecks]
  exact ⟨_, rfl, rfl⟩

/-- C4 witness: `m = 32`, `k = 256`, `n = 16`, 8-bit weights, group-wise
scales with group size 128 and a bias: the call succeeds with output
shape `(32, 16)`. -/
theorem C4_witness :
    (((8 : Int) = 4 ∨ (8 : Int) = 8) ∧ (0 : Nat) < 256 ∧ (16 : Nat) % 8 = 0 ∧
      ((exScales2 (256 / 128) 16 0 : Tensor) = exVec 16 0 ∧ (128 : Nat) = 256 ∨
        (exScales2 (256 / 128) 16 0 : Tensor) = exScales2 (256 / 128) 16 0 ∧
          ((128 : Nat) = 64 ∨ (128 : Nat) = 128) ∧ (256 : Nat) % 128 = 0) ∧
      ((some (exVec 16 3) : Option Tensor) = none ∨
        ∃ db, (some (exVec 16 3) : Option Tensor) = some (exVec 16 db))) ∧
    ∃ r, (quant_matmul (exInput 32 256 0)
            (exWeight 16 (256 / ((8 : Int) / 8).toNat) 0)
            (exScales2 (256 / 128) 16 0) (some (exVec 16 3)) 8).result = .ok r ∧
          r.outShape = [32, 16] :=
  ⟨⟨Or.inr rfl, by decide, by decide,
      Or.inr ⟨rfl, Or.inr rfl, by decide⟩, Or.inr ⟨3, rfl⟩⟩,
    C4_valid_inputs_succeed 32 256 16 128 0 0 0 8 (exScales2 (256 / 128) 16 0)
      (some (exVec 16 3)) (Or.inr rfl) (by decide) (by decide)
      (Or.inr ⟨rfl, Or.inr rfl, by decide⟩) (Or.inr ⟨3, rfl⟩)⟩

/-- C5: for every accepted input of physical shape `(rows, physCols)` —
i.e. logical `(rows, cols)` with `cols = physCols * (8/bits)` —
`preprocess_weight` returns a fresh matrix of physical shape
`(cols, rows / (8/bits))` and leaves the input unchanged. -/
theorem C5_preprocess_transpose (qw out res : Tensor) (bits arch : Int) (r c : Nat)
    (hshape : qw.shape = [r, c])
    (h : preprocess_weight qw bits arch = .ok (out, res)) :
    out.shape = [c * (8 / bits).toNat, r / (8 / bits).toNat] ∧ res = qw := by
  unfold preprocess_weight at h
  simp only [bind, Except.bind] at h
  repeat' split at h
  all_goals try exact Except.noConfusion h
  simp only [pure_eq_ok, Except.ok.injEq, Prod.mk.injEq] at h
  obtain ⟨hout, hres⟩ := h
  subst hres
  rw [← hout]
  refine ⟨?_, rfl⟩
  simp_all [size_ok_iff]

/-- C5 witness: a `(3, 5)` int8 host matrix with 4-bit packing maps to
physical shape `(10, 1)`, and the input comes back unchanged. -/
theorem C5_witness :
    (exHostWeight 3 5).shape = [3, 5] ∧
    preprocess_weight (exHostWeight 3 5) 4 80 =
      .ok ({ shape := [10, 1], dtype := .int8, device := .cpu, contiguous := true },
           exHostWeight 3 5) ∧
    ({ shape := [10, 1], dtype := .int8, device := .cpu, contiguous := true } :
        Tensor).shape =
      [5 * ((8 : Int) / 4).toNat, 3 / ((8 : Int) / 4).toNat] ∧
    exHostWeight 3 5 = exHostWeight 3 5 :=
  ⟨rfl, rfl, C5_preprocess_transpose (exHostWeight 3 5) _ _ 4 80 3 5 rfl rfl⟩

/-- C6: any validation failure of `quant_matmul` happens before the output
tensor or any workspace is allocated (the event trace is empty on
failure); on success the first event is the output allocation; and
`bits = 3` always fails validation with the bit-width error. -/
theorem C6_no_alloc_on_failure :
    (∀ (i w s : Tensor) (b? : Option Tensor) (bits : Int) (e : ErrKind),
      (quant_matmul i w s b? bits).result = .error e →
      (quant_matmul i w s b? bits).trace = []) ∧
    (∀ (i w s : Tensor) (b? : Option Tensor) (r : MMSuccess),
      (quant_matmul i w s b? 3).result = .ok r → False) ∧
    (∀ (i w s : Tensor) (b? : Option Tensor),
      (quant_matmul i w s b? 3).result = .error .UnsupportedBitWidthError) ∧
    (∀ (i w s : Tensor) (b? : Option Tensor) (bits : Int) (r : MMSuccess),
      (quant_matmul i w s b? bits).result = .ok r →
      (quant_matmul i w s b? bits).trace.head? = some (.allocOutput r.outShape)) := by
  have h3 : ∀ (i w s : Tensor) (b? : Option Tensor),
      (quant_matmul i w s b? 3).result = .error .UnsupportedBitWidthError := by
    intro i w s b?
    rw [quant_matmul_result_error_iff]
    simp [quant_matmul_checks, torchCheck, bind, Except.bind]
  refine ⟨?_, ?_, h3, ?_⟩
  · intro i w s b? bits e h
    cases hc : quant_matmul_checks i w s b? bits with
    | error e' => simp [quant_matmul, hc]
    | ok c =>
        rw [quant_matmul_eq_of_checks_ok i w s b? bits c hc] at h
        exact Except.noConfusion h
  · intro i w s b? r h
    rw [h3 i w s b?] at h
    exact Except.noConfusion h
  · intro i w s b? bits r h
    obtain ⟨c, hc, hr⟩ := quant_matmul_ok_inv i w s b? bits r h
    rw [quant_matmul_eq_of_checks_ok i w s b? bits c hc]
    subst hr
    rfl

/-- C6 witness: a concrete `bits = 3` call fails with the bit-width error
and allocates nothing. -/
theorem C6_witness :
    (quant_matmul (exInput 2 64 0) (exWeight 8 32 0) (exVec 8 0) none 3).result =
      .error .UnsupportedBitWidthError ∧
    (quant_matmul (exInput 2 64 0) (exWeight 8 32 0) (exVec 8 0) none 3).trace = [] :=
  ⟨rfl, C6_no_alloc_on_failure.1 (exInput 2 64 0) (exWeight 8 32 0) (exVec 8 0)
    none 3 .UnsupportedBitWidthError rfl⟩

/-- C7: `preprocess_weight` enforces its preconditions: success implies
`bits ∈ {4, 8}`, `70 ≤ arch < 90`, and a contiguous int8 host input; with
a valid bit-width, an architecture outside the range fails with
`UnsupportedArchError`; an invalid bit-width fails with the bit-width
error. -/
theorem C7_preprocess_preconditions :
    (∀ (qw : Tensor) (bits arch : Int) (p : Tensor × Tensor),
      preprocess_weight qw bits arch = .ok p →
      (bits = 4 ∨ bits = 8) ∧ (70 ≤ arch ∧ arch < 90) ∧
      qw.dtype = .int8 ∧ qw.is_cpu = true ∧ qw.contiguous = true) ∧
    (∀ (qw : Tensor) (bits arch : Int),
      (bits = 4 ∨ bits = 8) → ¬(70 ≤ arch ∧ arch < 90) →
      preprocess_weight qw bits arch = .error .UnsupportedArchError) ∧
    (∀ (qw : Tensor) (bits arch : Int),
      bits ≠ 4 → bits ≠ 8 →
      preprocess_weight qw bits arch = .error .UnsupportedBitWidthError) := by
  refine ⟨?_, ?_, ?_⟩
  · intro qw bits arch p h
    unfold preprocess_weight at h
    simp only [bind, Except.bind] at h
    repeat' split at h
    all_goals first
      | exact Except.noConfusion h
      | simp_all [size_ok_iff, torchCheck_ok_iff]
  · intro qw bits arch hbits harch
    have hb : (bits == 4 || bits == 8) = true := by
      rcases hbits with hb | hb <;> simp [hb]
    by_cases h70 : (70 : Int) ≤ arch
    · have h90 : ¬ arch < 90 := fun hcon => harch ⟨h70, hcon⟩
      simp [preprocess_weight, torchCheck, bind, Except.bind, hb, h70, h90]
    · simp [preprocess_weight, torchCheck, bind, Except.bind, hb, h70]
  · intro qw bits arch h4 h8
    have hb : (bits == 4 || bits == 8) = false := by simp [h4, h8]
    simp [preprocess_weight, torchCheck, bind, Except.bind, hb]

/-- C7 witness: `arch = 95` with valid bits fails with
`UnsupportedArchError`. -/
theorem C7_witness :
    (((4 : Int) = 4 ∨ (4 : Int) = 8) ∧ ¬((70 : Int) ≤ 95 ∧ (95 : Int) < 90)) ∧
    preprocess_weight (exHostWeight 3 5) 4 95 = .error .UnsupportedArchError :=
  ⟨⟨Or.inl rfl, by decide⟩,
    C7_preprocess_preconditions.2.1 (exHostWeight 3 5) 4 95 (Or.inl rfl) (by decide)⟩

/-- C9 counterexample: an empty rank-2 scale tensor (shape `(0, 8)`) makes
the divisor `weight_scales.shape[0]` zero, and the call hits the
division-by-zero undefined behaviour — the divisors are not nonzero for
every input. -/
theorem C9_counterexample :
    (exScales2 0 8 0).shape.get? 0 = some 0 ∧
    (quant_matmul (exInput 2 64 0) (exWeight 8 32 0) (exScales2 0 8 0) none 4).result =
      .error .DivideByZeroUB :=
  ⟨rfl, rfl⟩

set_option maxHeartbeats 3200000 in
/-- C9 (amended): the divisors in the group-size computation are nonzero —
and no division or remainder by zero is reachable — for every call with
`k ≥ 1` whose scale tensor, when of rank 2, has `1 ≤ shape[0] ≤ k`. -/
theorem C9_divisors_nonzero (i w s : Tensor) (b? : Option Tensor) (bits : Int)
    (m k : Nat)
    (hi : i.shape = [m, k]) (hk : 0 < k)
    (hs : s.dim = 2 → ∃ s0 t, s.shape = [s0, t] ∧ 0 < s0 ∧ s0 ≤ k) :
    (quant_matmul i w s b? bits).result ≠ .error .DivideByZeroUB := by
  intro h
  rw [quant_matmul_result_error_iff] at h
  unfold quant_matmul_checks at h
  simp only [bind, Except.bind] at h
  by_cases hdim : s.dim = 2
  · obtain ⟨s0, t, hsshape, hs0pos, hs0le⟩ := hs hdim
    have hdiv0 : k / s0 = 0 ↔ k < s0 := Nat.div_eq_zero_iff hs0pos
    repeat' split at h
    all_goals try simp only [pure_eq_ok] at h
    all_goals first
      | exact Except.noConfusion h
      | (injection h with h
         subst h
         simp_all [torchCheck_error_iff, size_error_iff, cppDiv_error_iff,
           cppMod_error_iff, size_ok_iff, cppDiv_ok_iff, torchCheck_ok_iff,
           pure_eq_ok, Tensor.dim, hdiv0]
         try omega)
  · repeat' split at h
    all_goals try simp only [pure_eq_ok] at h
    all_goals first
      | exact Except.noConfusion h
      | (injection h with h
         subst h
         simp_all [torchCheck_error_iff, size_error_iff, cppDiv_error_iff,
           cppMod_error_iff, size_ok_iff, cppDiv_ok_iff, torchCheck_ok_iff,
           pure_eq_ok, Tensor.dim]
         try omega)

/-- C9 witness: a concrete valid group-wise call with `k = 256` and
`shape[0] = 2` does not hit the division-by-zero outcome. -/
theorem C9_witness :
    (exInput 32 256 0).shape = [32, 256] ∧ (0 : Nat) < 256 ∧
    ((exScales2 2 16 0).dim = 2 →
      ∃ s0 t, (exScales2 2 16 0).shape = [s0, t] ∧ 0 < s0 ∧ s0 ≤ 256) ∧
    (quant_matmul (exInput 32 256 0) (exWeight 16 256 0) (exScales2 2 16 0)
        none 8).result ≠ .error .DivideByZeroUB :=
  ⟨rfl, by decide, fun _ => ⟨2, 16, rfl, by decide, by decide⟩,
    C9_divisors_nonzero (exInput 32 256 0) (exWeight 16 256 0) (exScales2 2 16 0)
      none 8 32 256 rfl (by decide)
      (fun _ => ⟨2, 16, rfl, by decide, by decide⟩)⟩

set_option linter.unusedVariables false in
/-- C10: `preprocess_weight` does not require the row count to be
divisible by `8 / bits`: with 4-bit packing, any contiguous int8 host
matrix with an odd row count `r` passes validation, and the output's
physical shape is `(2 * physCols, r / 2)` with truncating division. -/
theorem C10_odd_rows_pass (r c : Nat) (arch : Int) (hr : r % 2 = 1)
    (h70 : 70 ≤ arch) (h90 : arch < 90) :
    preprocess_weight (exHostWeight r c) 4 arch =
      .ok ({ shape := [c * 2, r / 2], dtype := .int8, device := .cpu,
             contiguous := true }, exHostWeight r c) := by
  have hc2 : c * 2 / 2 = c := Nat.mul_div_cancel c (by omega)
  simp [preprocess_weight, bind, Except.bind, torchCheck, Tensor.size,
    Tensor.is_cpu, exHostWeight, pure_eq_ok, h70, h90, hc2]

/-- C10 witness: `rows = 3` (odd), physical columns 5: validation passes
and the output has physical shape `(10, 1)`. -/
theorem C10_witness :
    ((3 : Nat) % 2 = 1 ∧ (70 : Int) ≤ 80 ∧ (80 : Int) < 90) ∧
    preprocess_weight (exHostWeight 3 5) 4 80 =
      .ok ({ shape := [5 * 2, 3 / 2], dtype := .int8, device := .cpu,
             contiguous := true }, exHostWeight 3 5) :=
  ⟨⟨by decide, by decide, by decide⟩,
    C10_odd_rows_pass 3 5 80 (by decide) (by decide) (by decide)⟩
